import Mathlib

/-!
Verification of the bank-account module `src/bank_account.py`.

The module is embedded shallowly:
* Python numbers (`int`/`float` amounts and balances) are modelled as `ℚ`
  (exact arithmetic); the dynamic `isinstance` numeric checks collapse into
  the type of the amount parameter.
* The exception hierarchy `BankAccountError` with its three refinements is
  modelled as the inductive `AccountError`; `InsufficientFundsError` keeps
  its diagnostic payload (current balance, attempted amount), the string
  messages of the other two are elided.
* A method that can raise returns `Except AccountError _`.
* Python objects are mutable references; transfers touch two accounts (or
  one, for a self-transfer).  Mutation is made explicit by a `Store`: a list
  of accounts keyed by `account_number`, with operations that read an
  account from the store, apply the method, and write the result back.  An
  operation that raises midway (as `transfer` can) returns the store as
  mutated up to the point of the raise, exactly like the Python objects.
* The process-wide counter `BankAccount._account_counter` is threaded
  explicitly through construction.
-/

namespace Bank

/-- Error taxonomy of `bank_account.py`: `InsufficientFundsError` (with its
diagnostic payload), `InvalidAmountError`, `InvalidAccountError`. -/
inductive AccountError where
  | insufficientFunds (balance : ℚ) (amount : ℚ)
  | invalidAmount
  | invalidAccount
deriving DecidableEq, Repr

/-- One transaction tuple `(action, amount, resulting_balance[, other_account_number])`
from `self._transactions`; the optional trailing field holds the counterparty
account number of a transfer. -/
structure TxRecord where
  action : String
  amount : ℚ
  resulting_balance : ℚ
  counterparty : Option Nat
deriving DecidableEq, Repr

/-- The state of one `BankAccount` object: number, holder, balance, status
(`"active"` or `"inactive"`, kept as a string as in the source) and the
transaction history. -/
structure BankAccount where
  account_number : Nat
  account_holder : String
  balance : ℚ
  status : String
  transactions : List TxRecord
deriving DecidableEq, Repr

namespace BankAccount

/-- Embeds `BankAccount._validate_amount`: amounts must be strictly positive
(`amount <= 0` raises `InvalidAmountError`; numeric-ness is by type). -/
def validate_amount (amount : ℚ) : Except AccountError Unit :=
  if amount ≤ 0 then .error .invalidAmount else .ok ()

/-- Embeds `BankAccount._ensure_active`: raises `InvalidAccountError` unless the
status is `"active"`. -/
def ensure_active (a : BankAccount) : Except AccountError Unit :=
  if a.status ≠ "active" then .error .invalidAccount else .ok ()

/-- Embeds `BankAccount.__init__`: validates `initial_balance >= 0` and the status
enum, increments the process-wide counter, then records the creation entry.
Returns the new account together with the new counter value. -/
def init (counter : Nat) (account_holder : String) (initial_balance : ℚ)
    (status : String) : Except AccountError (BankAccount × Nat) :=
  if initial_balance < 0 then .error .invalidAmount
  else if status ≠ "active" ∧ status ≠ "inactive" then .error .invalidAccount
  else
    .ok ({ account_number := counter + 1,
           account_holder := account_holder,
           balance := initial_balance,
           status := status,
           transactions :=
             [⟨"Account created", initial_balance, initial_balance, none⟩] },
         counter + 1)

/-- Embeds `BankAccount.from_balance`: direct construction with the default status. -/
def from_balance (counter : Nat) (account_holder : String)
    (initial_balance : ℚ) : Except AccountError (BankAccount × Nat) :=
  init counter account_holder initial_balance "active"

/-- Embeds `BankAccount.deposit`: `_ensure_active`, `_validate_amount`, add the
amount, append a `"Deposit"` record, return the new balance (here paired
with the updated account object). -/
def deposit (a : BankAccount) (amount : ℚ) :
    Except AccountError (BankAccount × ℚ) := do
  ensure_active a
  validate_amount amount
  let b := a.balance + amount
  .ok ({ a with
         balance := b
         transactions := a.transactions ++ [⟨"Deposit", amount, b, none⟩] }, b)

/-- Embeds `BankAccount.withdraw`: `_ensure_active`, `_validate_amount`, raise
`InsufficientFundsError balance amount` if `amount > balance`, else subtract
and append a `"Withdraw"` record. -/
def withdraw (a : BankAccount) (amount : ℚ) :
    Except AccountError (BankAccount × ℚ) := do
  ensure_active a
  validate_amount amount
  if a.balance < amount then
    .error (.insufficientFunds a.balance amount)
  else
    let b := a.balance - amount
    .ok ({ a with
           balance := b
           transactions := a.transactions ++ [⟨"Withdraw", amount, b, none⟩] }, b)

end BankAccount

/-- Python `str.split(sep)` for a one-character separator, on the character
list of the string: `"a;b"` gives `["a", "b"]`, `""` gives `[""]`,
`"a;;b"` gives `["a", "", "b"]`. -/
def splitChars (sep : Char) : List Char → List (List Char)
  | [] => [[]]
  | c :: rest =>
    match splitChars sep rest with
    | [] => if c = sep then [[], []] else [[c]]
    | h :: t => if c = sep then [] :: h :: t else (c :: h) :: t

/-- Python `str.strip()` restricted to the common ASCII whitespace
characters: drop them from both ends. -/
def pyStrip (l : List Char) : List Char :=
  ((l.dropWhile Char.isWhitespace).reverse.dropWhile Char.isWhitespace).reverse

/-- Value of a digit run read left to right, most significant first. -/
def readDigits : List Char → Nat → Nat
  | [], acc => acc
  | c :: rest, acc => readDigits rest (acc * 10 + (c.toNat - 48))

/-- Modelled from the spec: Python's builtin `float()` (a language builtin,
not code of this repository) applied to plain decimal literals, as
`from_string` uses it — surrounding whitespace allowed, optional sign,
digits with an optional fractional part; anything else fails (`none`). -/
def pyFloat (s : List Char) : Option ℚ :=
  let t := pyStrip s
  let neg := t.head? = some '-'
  let u := if t.head? = some '-' ∨ t.head? = some '+' then t.tail else t
  let ip := u.takeWhile Char.isDigit
  let rest := u.dropWhile Char.isDigit
  match rest with
  | [] =>
    if ip = [] then none
    else
      let q : ℚ := mkRat (readDigits ip 0) 1
      some (if neg then -q else q)
  | '.' :: r2 =>
    let fp := r2.takeWhile Char.isDigit
    if r2.dropWhile Char.isDigit = [] ∧ ¬(ip = [] ∧ fp = []) then
      let q : ℚ := mkRat (readDigits (ip ++ fp) 0) (10 ^ fp.length)
      some (if neg then -q else q)
    else none
  | _ => none

namespace BankAccount

/-- Embeds `BankAccount.from_string`: split on `";"` into exactly three fields,
strip holder and status, parse the balance with `float()`, delegate to
`__init__`; ANY failure (wrong field count, non-numeric balance, or a
constructor error) is re-raised as a single `InvalidAccountError`. -/
def from_string (counter : Nat) (account_data : String) :
    Except AccountError (BankAccount × Nat) :=
  match splitChars ';' account_data.data with
  | [name, balance_text, status_text] =>
    match pyFloat balance_text with
    | none => .error .invalidAccount
    | some q =>
      match init counter (String.mk (pyStrip name)) q
          (String.mk (pyStrip status_text)) with
      | .error _ => .error .invalidAccount
      | .ok r => .ok r
  | _ => .error .invalidAccount

end BankAccount

/-- The heap of live `BankAccount` objects, keyed by `account_number`;
method calls on an account read it here and write the mutated object back,
making Python's reference semantics (and aliasing, for a self-transfer)
explicit. -/
abbrev Store := List BankAccount

/-- Fetch the account object with the given number. -/
def Store.get : Store → Nat → Option BankAccount
  | [], _ => none
  | a :: rest, n =>
    if a.account_number = n then some a else Store.get rest n

/-- Write back a mutated account object: replace the account with the same
number. -/
def Store.set (s : Store) (a : BankAccount) : Store :=
  s.map (fun b => if b.account_number = a.account_number then a else b)

/-- The method `deposit` as a store operation: on an error the store is returned
untouched (the method raises before mutating). -/
def depositS (s : Store) (n : Nat) (amount : ℚ) :
    Store × Except AccountError ℚ :=
  match Store.get s n with
  | none => (s, .error .invalidAccount)
  | some a =>
    match BankAccount.deposit a amount with
    | .error e => (s, .error e)
    | .ok (a1, b) => (Store.set s a1, .ok b)

/-- The method `withdraw` as a store operation. -/
def withdrawS (s : Store) (n : Nat) (amount : ℚ) :
    Store × Except AccountError ℚ :=
  match Store.get s n with
  | none => (s, .error .invalidAccount)
  | some a =>
    match BankAccount.withdraw a amount with
    | .error e => (s, .error e)
    | .ok (a1, b) => (Store.set s a1, .ok b)

/-- The `balance` property setter: non-negative values only, replaces the
balance, appends no history record. -/
def setBalanceS (s : Store) (n : Nat) (new_value : ℚ) :
    Store × Except AccountError Unit :=
  match Store.get s n with
  | none => (s, .error .invalidAccount)
  | some a =>
    if new_value < 0 then (s, .error .invalidAmount)
    else (Store.set s { a with balance := new_value }, .ok ())

/-- The `status` property setter: value must be `"active"` or `"inactive"`. -/
def setStatusS (s : Store) (n : Nat) (value : String) :
    Store × Except AccountError Unit :=
  match Store.get s n with
  | none => (s, .error .invalidAccount)
  | some a =>
    if value ≠ "active" ∧ value ≠ "inactive" then (s, .error .invalidAccount)
    else (Store.set s { a with status := value }, .ok ())

/-- Embeds `BankAccount.transfer` as a store operation, following the source line
by line: `_ensure_active` on the source, the target `isinstance` check
(here: the target number resolves to an account), `_validate_amount`, then
`self.withdraw(amount)`, then `target_account.deposit(amount)` — each
written back to the store as it happens, so a deposit failure leaves the
withdrawal in place as in Python — then the `"Transfer to"` /
`"Transfer from"` records, each carrying the counterparty number. -/
def transferS (s : Store) (srcN : Nat) (amount : ℚ) (tgtN : Nat) :
    Store × Except AccountError Bool :=
  match Store.get s srcN with
  | none => (s, .error .invalidAccount)
  | some src =>
    match BankAccount.ensure_active src with
    | .error e => (s, .error e)
    | .ok _ =>
      match Store.get s tgtN with
      | none => (s, .error .invalidAccount)
      | some _ =>
        match BankAccount.validate_amount amount with
        | .error e => (s, .error e)
        | .ok _ =>
          match BankAccount.withdraw src amount with
          | .error e => (s, .error e)
          | .ok (src1, _) =>
            match Store.get (Store.set s src1) tgtN with
            | none => (Store.set s src1, .error .invalidAccount)
            | some tgt1 =>
              match BankAccount.deposit tgt1 amount with
              | .error e => (Store.set s src1, .error e)
              | .ok (tgt2, _) =>
                match Store.get (Store.set (Store.set s src1) tgt2) srcN with
                | none => (Store.set (Store.set s src1) tgt2,
                           .error .invalidAccount)
                | some src2 =>
                  match Store.get
                      (Store.set (Store.set (Store.set s src1) tgt2)
                        { src2 with
                          transactions := src2.transactions ++
                            [⟨"Transfer to", amount, src2.balance, some tgtN⟩] })
                      tgtN with
                  | none =>
                    (Store.set (Store.set (Store.set s src1) tgt2)
                      { src2 with
                        transactions := src2.transactions ++
                          [⟨"Transfer to", amount, src2.balance, some tgtN⟩] },
                     .error .invalidAccount)
                  | some tgt3 =>
                    (Store.set
                      (Store.set (Store.set (Store.set s src1) tgt2)
                        { src2 with
                          transactions := src2.transactions ++
                            [⟨"Transfer to", amount, src2.balance, some tgtN⟩] })
                      { tgt3 with
                        transactions := tgt3.transactions ++
                          [⟨"Transfer from", amount, tgt3.balance, some srcN⟩] },
                     .ok true)

/-- Whole-process state: the live accounts plus the process-wide counter
`BankAccount._account_counter` (seeded at 1000). -/
structure Sys where
  store : Store
  counter : Nat
deriving DecidableEq, Repr

/-- The fresh process state: no accounts, counter at its seed 1000. -/
def sysInit : Sys := ⟨[], 1000⟩

/-- Direct construction as a process operation: on success the new object
joins the store and the counter advances; on failure (raised before the
counter increment) nothing changes. -/
def createS (sys : Sys) (account_holder : String) (initial_balance : ℚ)
    (status : String) : Sys × Except AccountError Nat :=
  match BankAccount.init sys.counter account_holder initial_balance status with
  | .error e => (sys, .error e)
  | .ok (a, c) => (⟨sys.store ++ [a], c⟩, .ok a.account_number)

/-- The parser `from_string` as a process operation. -/
def fromStringS (sys : Sys) (account_data : String) :
    Sys × Except AccountError Nat :=
  match BankAccount.from_string sys.counter account_data with
  | .error e => (sys, .error e)
  | .ok (a, c) => (⟨sys.store ++ [a], c⟩, .ok a.account_number)

/-- One call of the module's public mutating surface. -/
inductive Op where
  | create (account_holder : String) (initial_balance : ℚ) (status : String)
  | fromString (account_data : String)
  | deposit (n : Nat) (amount : ℚ)
  | withdraw (n : Nat) (amount : ℚ)
  | transfer (srcN : Nat) (amount : ℚ) (tgtN : Nat)
  | setBalance (n : Nat) (new_value : ℚ)
  | setStatus (n : Nat) (value : String)

/-- Apply one call, keeping the state as mutated up to a possible raise. -/
def step (sys : Sys) : Op → Sys
  | .create h i st => (createS sys h i st).1
  | .fromString d => (fromStringS sys d).1
  | .deposit n amt => { sys with store := (depositS sys.store n amt).1 }
  | .withdraw n amt => { sys with store := (withdrawS sys.store n amt).1 }
  | .transfer srcN amt tgtN =>
    { sys with store := (transferS sys.store srcN amt tgtN).1 }
  | .setBalance n v => { sys with store := (setBalanceS sys.store n v).1 }
  | .setStatus n v => { sys with store := (setStatusS sys.store n v).1 }

/-- Run a whole call sequence. -/
def run (sys : Sys) (ops : List Op) : Sys := ops.foldl step sys

/-- The account numbers of the live accounts, in creation order. -/
def accountNumbers (s : Store) : List Nat := s.map (·.account_number)

/-- The running invariant of the process-wide counter: account numbers are
strictly increasing in creation order and never exceed the counter. -/
def CounterInv (sys : Sys) : Prop :=
  (accountNumbers sys.store).Pairwise (· < ·) ∧
  ∀ m ∈ accountNumbers sys.store, m ≤ sys.counter

/-- A concrete active account used for witnesses and counterexamples. -/
def aliceActive : BankAccount :=
  ⟨1001, "Alice", 100, "active", [⟨"Account created", 100, 100, none⟩]⟩

/-- A concrete inactive account used for witnesses and counterexamples. -/
def bobInactive : BankAccount :=
  ⟨1002, "Bob", 50, "inactive", [⟨"Account created", 50, 50, none⟩]⟩

/-- A concrete second active account used for witnesses and counterexamples. -/
def bobActive : BankAccount :=
  ⟨1002, "Bob", 50, "active", [⟨"Account created", 50, 50, none⟩]⟩

/-! ### Behaviour of the single-account methods -/

namespace BankAccount

theorem ensure_active_ok {a : BankAccount} (h : a.status = "active") :
    ensure_active a = .ok () := by
  simp [ensure_active, h]

theorem ensure_active_error {a : BankAccount} (h : a.status ≠ "active") :
    ensure_active a = .error .invalidAccount := by
  simp [ensure_active, h]

theorem validate_amount_ok {amount : ℚ} (h : 0 < amount) :
    validate_amount amount = .ok () := by
  simp [validate_amount, not_le.mpr h]

theorem validate_amount_error {amount : ℚ} (h : amount ≤ 0) :
    validate_amount amount = .error .invalidAmount := by
  simp [validate_amount, h]

theorem deposit_ok {a : BankAccount} {amount : ℚ}
    (h1 : a.status = "active") (h2 : 0 < amount) :
    deposit a amount =
      .ok ({ a with
             balance := a.balance + amount
             transactions := a.transactions ++
               [⟨"Deposit", amount, a.balance + amount, none⟩] },
           a.balance + amount) := by
  simp [deposit, ensure_active_ok h1, validate_amount_ok h2, Except.bind, bind]

theorem deposit_error_inactive {a : BankAccount} {amount : ℚ}
    (h : a.status ≠ "active") :
    deposit a amount = .error .invalidAccount := by
  simp [deposit, ensure_active_error h, Except.bind, bind]

theorem deposit_error_amount {a : BankAccount} {amount : ℚ}
    (h1 : a.status = "active") (h2 : amount ≤ 0) :
    deposit a amount = .error .invalidAmount := by
  simp [deposit, ensure_active_ok h1, validate_amount_error h2, Except.bind, bind]

theorem withdraw_ok {a : BankAccount} {amount : ℚ}
    (h1 : a.status = "active") (h2 : 0 < amount) (h3 : amount ≤ a.balance) :
    withdraw a amount =
      .ok ({ a with
             balance := a.balance - amount
             transactions := a.transactions ++
               [⟨"Withdraw", amount, a.balance - amount, none⟩] },
           a.balance - amount) := by
  simp [withdraw, ensure_active_ok h1, validate_amount_ok h2, not_lt.mpr h3, Except.bind, bind]

theorem withdraw_error_inactive {a : BankAccount} {amount : ℚ}
    (h : a.status ≠ "active") :
    withdraw a amount = .error .invalidAccount := by
  simp [withdraw, ensure_active_error h, Except.bind, bind]

theorem withdraw_error_amount {a : BankAccount} {amount : ℚ}
    (h1 : a.status = "active") (h2 : amount ≤ 0) :
    withdraw a amount = .error .invalidAmount := by
  simp [withdraw, ensure_active_ok h1, validate_amount_error h2, Except.bind, bind]

theorem withdraw_error_insufficient {a : BankAccount} {amount : ℚ}
    (h1 : a.status = "active") (h2 : 0 < amount) (h3 : a.balance < amount) :
    withdraw a amount = .error (.insufficientFunds a.balance amount) := by
  simp [withdraw, ensure_active_ok h1, validate_amount_ok h2, h3, Except.bind, bind]

theorem deposit_ok_inv {a a1 : BankAccount} {amount r : ℚ}
    (h : deposit a amount = .ok (a1, r)) :
    a.status = "active" ∧ 0 < amount ∧
    a1 = { a with
           balance := a.balance + amount
           transactions := a.transactions ++
             [⟨"Deposit", amount, a.balance + amount, none⟩] } ∧
    r = a.balance + amount := by
  by_cases h1 : a.status = "active"
  · by_cases h2 : 0 < amount
    · rw [deposit_ok h1 h2] at h
      simp only [Except.ok.injEq, Prod.mk.injEq] at h
      exact ⟨h1, h2, h.1.symm, h.2.symm⟩
    · rw [deposit_error_amount h1 (not_lt.mp h2)] at h; cases h
  · rw [deposit_error_inactive h1] at h; cases h

theorem withdraw_ok_inv {a a1 : BankAccount} {amount r : ℚ}
    (h : withdraw a amount = .ok (a1, r)) :
    a.status = "active" ∧ 0 < amount ∧ amount ≤ a.balance ∧
    a1 = { a with
           balance := a.balance - amount
           transactions := a.transactions ++
             [⟨"Withdraw", amount, a.balance - amount, none⟩] } ∧
    r = a.balance - amount := by
  by_cases h1 : a.status = "active"
  · by_cases h2 : 0 < amount
    · by_cases h3 : amount ≤ a.balance
      · rw [withdraw_ok h1 h2 h3] at h
        simp only [Except.ok.injEq, Prod.mk.injEq] at h
        exact ⟨h1, h2, h3, h.1.symm, h.2.symm⟩
      · rw [withdraw_error_insufficient h1 h2 (not_le.mp h3)] at h; cases h
    · rw [withdraw_error_amount h1 (not_lt.mp h2)] at h; cases h
  · rw [withdraw_error_inactive h1] at h; cases h

theorem init_ok {c : Nat} {holder : String} {i : ℚ} {st : String}
    (h1 : 0 ≤ i) (h2 : st = "active" ∨ st = "inactive") :
    init c holder i st =
      .ok ({ account_number := c + 1, account_holder := holder, balance := i,
             status := st,
             transactions := [⟨"Account created", i, i, none⟩] }, c + 1) := by
  rcases h2 with h2 | h2 <;> simp [init, not_lt.mpr h1, h2]

theorem init_ok_inv {c c' : Nat} {holder : String} {i : ℚ} {st : String}
    {a : BankAccount} (h : init c holder i st = .ok (a, c')) :
    0 ≤ i ∧ (st = "active" ∨ st = "inactive") ∧
    a = { account_number := c + 1, account_holder := holder, balance := i,
          status := st,
          transactions := [⟨"Account created", i, i, none⟩] } ∧ c' = c + 1 := by
  by_cases h1 : i < 0
  · simp [init, h1] at h
  · by_cases h2 : st = "active" ∨ st = "inactive"
    · rw [init_ok (not_lt.mp h1) h2] at h
      simp only [Except.ok.injEq, Prod.mk.injEq] at h
      exact ⟨not_lt.mp h1, h2, h.1.symm, h.2.symm⟩
    · push_neg at h2
      simp [init, h1, h2.1, h2.2] at h

end BankAccount

/-! ### Store lemmas -/

theorem Store.get_mem {s : Store} {n : Nat} {a : BankAccount}
    (h : Store.get s n = some a) : a ∈ s := by
  induction s with
  | nil => cases h
  | cons hd tl ih =>
    by_cases hn : hd.account_number = n
    · simp only [Store.get, if_pos hn, Option.some.injEq] at h
      simp [h]
    · simp only [Store.get, if_neg hn] at h
      simp [ih h]

theorem Store.get_number {s : Store} {n : Nat} {a : BankAccount}
    (h : Store.get s n = some a) : a.account_number = n := by
  induction s with
  | nil => cases h
  | cons hd tl ih =>
    by_cases hn : hd.account_number = n
    · simp only [Store.get, if_pos hn, Option.some.injEq] at h
      rw [← h]; exact hn
    · simp only [Store.get, if_neg hn] at h
      exact ih h

theorem Store.get_set (s : Store) (a : BankAccount) (n : Nat) :
    Store.get (Store.set s a) n =
      (Store.get s n).map
        (fun b => if b.account_number = a.account_number then a else b) := by
  induction s with
  | nil => rfl
  | cons hd tl ih =>
    show Store.get ((if hd.account_number = a.account_number then a else hd)
        :: Store.set tl a) n = _
    by_cases hh : hd.account_number = a.account_number
    · by_cases hn : hd.account_number = n
      · have han : a.account_number = n := hh ▸ hn
        simp [Store.get, hh, hn, han]
      · have han : a.account_number ≠ n := fun he => hn (hh.trans he)
        simpa [Store.get, hh, hn, han] using ih
    · by_cases hn : hd.account_number = n
      · rw [if_neg hh]
        have han : n ≠ a.account_number := fun he => hh (hn.trans he)
        simp [Store.get, hn, han]
      · simpa [Store.get, hh, hn] using ih

theorem Store.mem_set {s : Store} {a b : BankAccount}
    (h : b ∈ Store.set s a) : b = a ∨ b ∈ s := by
  rcases List.mem_map.mp h with ⟨c, hc, hbc⟩
  by_cases hcc : c.account_number = a.account_number
  · left; rw [← hbc]; simp [hcc]
  · right; rw [← hbc]; simpa [hcc] using hc

theorem Store.set_map_number (s : Store) (a : BankAccount) :
    (Store.set s a).map (·.account_number) = s.map (·.account_number) := by
  unfold Store.set
  rw [List.map_map]
  apply List.map_congr_left
  intro b _
  by_cases hb : b.account_number = a.account_number
  · simp [hb]
  · simp [hb]

/-- Reading back a just-written account whose number is the key. -/
theorem Store.get_set_self {s : Store} {n : Nat} {a a1 : BankAccount}
    (h : Store.get s n = some a) (hn : a1.account_number = a.account_number) :
    Store.get (Store.set s a1) n = some a1 := by
  rw [Store.get_set, h]
  simp [hn.symm]

/-- Reading a different key is unaffected by a write. -/
theorem Store.get_set_other {s : Store} {n : Nat} {a a1 : BankAccount}
    (h : Store.get s n = some a) (hn : a.account_number ≠ a1.account_number) :
    Store.get (Store.set s a1) n = some a := by
  rw [Store.get_set, h]
  simp [hn]

/-! ### Store-level operation lemmas -/

theorem depositS_eq_ok {s : Store} {n : Nat} {amount : ℚ} {a : BankAccount}
    (hs : Store.get s n = some a) (h1 : a.status = "active")
    (h2 : 0 < amount) :
    depositS s n amount =
      (Store.set s
        { a with
          balance := a.balance + amount
          transactions := a.transactions ++
            [⟨"Deposit", amount, a.balance + amount, none⟩] },
       .ok (a.balance + amount)) := by
  simp only [depositS, hs, BankAccount.deposit_ok h1 h2]

theorem depositS_eq_error {s : Store} {n : Nat} {amount : ℚ} {a : BankAccount}
    {e : AccountError} (hs : Store.get s n = some a)
    (hd : BankAccount.deposit a amount = .error e) :
    depositS s n amount = (s, .error e) := by
  simp only [depositS, hs, hd]

theorem withdrawS_eq_ok {s : Store} {n : Nat} {amount : ℚ} {a : BankAccount}
    (hs : Store.get s n = some a) (h1 : a.status = "active")
    (h2 : 0 < amount) (h3 : amount ≤ a.balance) :
    withdrawS s n amount =
      (Store.set s
        { a with
          balance := a.balance - amount
          transactions := a.transactions ++
            [⟨"Withdraw", amount, a.balance - amount, none⟩] },
       .ok (a.balance - amount)) := by
  simp only [withdrawS, hs, BankAccount.withdraw_ok h1 h2 h3]

theorem withdrawS_eq_error {s : Store} {n : Nat} {amount : ℚ} {a : BankAccount}
    {e : AccountError} (hs : Store.get s n = some a)
    (hw : BankAccount.withdraw a amount = .error e) :
    withdrawS s n amount = (s, .error e) := by
  simp only [withdrawS, hs, hw]

theorem depositS_error_unchanged {s s1 : Store} {n : Nat} {amount : ℚ}
    {e : AccountError} (h : depositS s n amount = (s1, .error e)) : s1 = s := by
  cases hg : Store.get s n with
  | none =>
    simp only [depositS, hg] at h
    rw [Prod.mk.injEq] at h
    exact h.1.symm
  | some a =>
    cases hd : BankAccount.deposit a amount with
    | error e1 =>
      simp only [depositS, hg, hd] at h
      rw [Prod.mk.injEq] at h
      exact h.1.symm
    | ok p =>
      rcases p with ⟨a1, r⟩
      simp only [depositS, hg, hd] at h
      rw [Prod.mk.injEq] at h
      exact Except.noConfusion h.2

theorem withdrawS_error_unchanged {s s1 : Store} {n : Nat} {amount : ℚ}
    {e : AccountError} (h : withdrawS s n amount = (s1, .error e)) : s1 = s := by
  cases hg : Store.get s n with
  | none =>
    simp only [withdrawS, hg] at h
    rw [Prod.mk.injEq] at h
    exact h.1.symm
  | some a =>
    cases hd : BankAccount.withdraw a amount with
    | error e1 =>
      simp only [withdrawS, hg, hd] at h
      rw [Prod.mk.injEq] at h
      exact h.1.symm
    | ok p =>
      rcases p with ⟨a1, r⟩
      simp only [withdrawS, hg, hd] at h
      rw [Prod.mk.injEq] at h
      exact Except.noConfusion h.2

theorem createS_error_unchanged {sys sys1 : Sys} {h : String} {i : ℚ}
    {st : String} {e : AccountError}
    (he : createS sys h i st = (sys1, .error e)) : sys1 = sys := by
  cases hg : BankAccount.init sys.counter h i st with
  | error e1 =>
    simp only [createS, hg] at he
    rw [Prod.mk.injEq] at he
    exact he.1.symm
  | ok p =>
    rcases p with ⟨a, c⟩
    simp only [createS, hg] at he
    rw [Prod.mk.injEq] at he
    exact Except.noConfusion he.2

theorem fromStringS_error_unchanged {sys sys1 : Sys} {d : String}
    {e : AccountError} (he : fromStringS sys d = (sys1, .error e)) :
    sys1 = sys := by
  cases hg : BankAccount.from_string sys.counter d with
  | error e1 =>
    simp only [fromStringS, hg] at he
    rw [Prod.mk.injEq] at he
    exact he.1.symm
  | ok p =>
    rcases p with ⟨a, c⟩
    simp only [fromStringS, hg] at he
    rw [Prod.mk.injEq] at he
    exact Except.noConfusion he.2

theorem setBalanceS_eq_ok {s : Store} {n : Nat} {v : ℚ} {a : BankAccount}
    (hs : Store.get s n = some a) (hv : 0 ≤ v) :
    setBalanceS s n v = (Store.set s { a with balance := v }, .ok ()) := by
  simp only [setBalanceS, hs, if_neg (not_lt.mpr hv)]

theorem setBalanceS_eq_error {s : Store} {n : Nat} {v : ℚ} {a : BankAccount}
    (hs : Store.get s n = some a) (hv : v < 0) :
    setBalanceS s n v = (s, .error .invalidAmount) := by
  simp only [setBalanceS, hs, if_pos hv]

/-! ### transfer: symbolic characterisations -/

theorem transferS_eq_of_inactive {s : Store} {srcN tgtN : Nat} {amount : ℚ}
    {src : BankAccount} (hs : Store.get s srcN = some src)
    (h1 : src.status ≠ "active") :
    transferS s srcN amount tgtN = (s, .error .invalidAccount) := by
  simp only [transferS, hs, BankAccount.ensure_active_error h1]

theorem transferS_eq_of_bad_amount {s : Store} {srcN tgtN : Nat} {amount : ℚ}
    {src tgt : BankAccount} (hs : Store.get s srcN = some src)
    (hsa : src.status = "active") (ht : Store.get s tgtN = some tgt)
    (h2 : amount ≤ 0) :
    transferS s srcN amount tgtN = (s, .error .invalidAmount) := by
  simp only [transferS, hs, BankAccount.ensure_active_ok hsa, ht,
    BankAccount.validate_amount_error h2]

theorem transferS_eq_of_withdraw_error {s : Store} {srcN tgtN : Nat}
    {amount : ℚ} {src tgt : BankAccount} {e : AccountError}
    (hs : Store.get s srcN = some src) (hsa : src.status = "active")
    (ht : Store.get s tgtN = some tgt) (h0 : 0 < amount)
    (hw : BankAccount.withdraw src amount = .error e) :
    transferS s srcN amount tgtN = (s, .error e) := by
  simp only [transferS, hs, BankAccount.ensure_active_ok hsa, ht,
    BankAccount.validate_amount_ok h0, hw]

theorem transferS_eq_of_deposit_error {s : Store} {srcN tgtN : Nat}
    {amount r1 : ℚ} {src tgt src1 : BankAccount} {e : AccountError}
    (hs : Store.get s srcN = some src) (ht : Store.get s tgtN = some tgt)
    (hne : srcN ≠ tgtN)
    (hw : BankAccount.withdraw src amount = .ok (src1, r1))
    (hd : BankAccount.deposit tgt amount = .error e) :
    transferS s srcN amount tgtN = (Store.set s src1, .error e) := by
  obtain ⟨hsa, h0, hle, hsrc1, hr1⟩ := BankAccount.withdraw_ok_inv hw
  have hsn := Store.get_number hs
  have htn := Store.get_number ht
  have hn1 : src1.account_number = src.account_number := by rw [hsrc1]
  have hg1 : Store.get (Store.set s src1) tgtN = some tgt :=
    Store.get_set_other ht
      (by rw [htn, hn1, hsn]; exact fun he => hne he.symm)
  simp only [transferS, hs, BankAccount.ensure_active_ok hsa, ht,
    BankAccount.validate_amount_ok h0, hw, hg1, hd]

theorem transferS_eq_of_ok {s : Store} {srcN tgtN : Nat} {amount r1 r2 : ℚ}
    {src tgt src1 tgt2 : BankAccount}
    (hs : Store.get s srcN = some src) (ht : Store.get s tgtN = some tgt)
    (hne : srcN ≠ tgtN)
    (hw : BankAccount.withdraw src amount = .ok (src1, r1))
    (hd : BankAccount.deposit tgt amount = .ok (tgt2, r2)) :
    transferS s srcN amount tgtN =
      (Store.set (Store.set (Store.set (Store.set s src1) tgt2)
        { src1 with transactions := src1.transactions ++
            [⟨"Transfer to", amount, src1.balance, some tgtN⟩] })
        { tgt2 with transactions := tgt2.transactions ++
            [⟨"Transfer from", amount, tgt2.balance, some srcN⟩] },
       .ok true) := by
  obtain ⟨hsa, h0, hle, hsrc1, hr1⟩ := BankAccount.withdraw_ok_inv hw
  obtain ⟨hta, -, htgt2, -⟩ := BankAccount.deposit_ok_inv hd
  have hsn := Store.get_number hs
  have htn := Store.get_number ht
  have hn1 : src1.account_number = src.account_number := by rw [hsrc1]
  have hn2 : tgt2.account_number = tgt.account_number := by rw [htgt2]
  have hg1 : Store.get (Store.set s src1) tgtN = some tgt :=
    Store.get_set_other ht
      (by rw [htn, hn1, hsn]; exact fun he => hne he.symm)
  have hg2 : Store.get (Store.set (Store.set s src1) tgt2) srcN = some src1 :=
    Store.get_set_other (Store.get_set_self hs hn1)
      (by rw [hn1, hsn, hn2, htn]; exact hne)
  have hg3 : Store.get (Store.set (Store.set (Store.set s src1) tgt2)
      { src1 with transactions := src1.transactions ++
          [⟨"Transfer to", amount, src1.balance, some tgtN⟩] }) tgtN =
      some tgt2 :=
    Store.get_set_other (Store.get_set_self hg1 hn2)
      (show tgt2.account_number ≠ src1.account_number by
        rw [hn1, hsn, hn2, htn]; exact fun he => hne he.symm)
  simp only [transferS, hs, BankAccount.ensure_active_ok hsa, ht,
    BankAccount.validate_amount_ok h0, hw, hg1, hd, hg2, hg3]

theorem transferS_self_eq_of_ok {s : Store} {n : Nat} {amount r1 r2 : ℚ}
    {src a1 a2 : BankAccount}
    (hs : Store.get s n = some src)
    (hw : BankAccount.withdraw src amount = .ok (a1, r1))
    (hd : BankAccount.deposit a1 amount = .ok (a2, r2)) :
    transferS s n amount n =
      (Store.set (Store.set (Store.set (Store.set s a1) a2)
        { a2 with transactions := a2.transactions ++
            [⟨"Transfer to", amount, a2.balance, some n⟩] })
        { a2 with transactions := (a2.transactions ++
            [⟨"Transfer to", amount, a2.balance, some n⟩]) ++
            [⟨"Transfer from", amount, a2.balance, some n⟩] },
       .ok true) := by
  obtain ⟨hsa, h0, hle, hsrc1, hr1⟩ := BankAccount.withdraw_ok_inv hw
  obtain ⟨-, -, htgt2, -⟩ := BankAccount.deposit_ok_inv hd
  have hn1 : a1.account_number = src.account_number := by rw [hsrc1]
  have hn2 : a2.account_number = a1.account_number := by rw [htgt2]
  have hg1 : Store.get (Store.set s a1) n = some a1 :=
    Store.get_set_self hs hn1
  have hg2 : Store.get (Store.set (Store.set s a1) a2) n = some a2 :=
    Store.get_set_self hg1 hn2
  have hg3 : Store.get (Store.set (Store.set (Store.set s a1) a2)
      { a2 with transactions := a2.transactions ++
          [⟨"Transfer to", amount, a2.balance, some n⟩] }) n =
      some { a2 with transactions := a2.transactions ++
          [⟨"Transfer to", amount, a2.balance, some n⟩] } :=
    Store.get_set_self hg2 rfl
  simp only [transferS, hs, BankAccount.ensure_active_ok hsa,
    BankAccount.validate_amount_ok h0, hw, hg1, hd, hg2, hg3]

/-! ### Non-negativity of balances -/

theorem nonneg_set {s : Store} {a : BankAccount}
    (h : ∀ b ∈ s, 0 ≤ b.balance) (ha : 0 ≤ a.balance) :
    ∀ b ∈ Store.set s a, 0 ≤ b.balance := by
  intro b hb
  rcases Store.mem_set hb with rfl | hb2
  · exact ha
  · exact h b hb2

theorem depositS_preserves_nonneg {s : Store} {n : Nat} {amount : ℚ}
    (h : ∀ b ∈ s, 0 ≤ b.balance) :
    ∀ b ∈ (depositS s n amount).1, 0 ≤ b.balance := by
  cases hg : Store.get s n with
  | none => simp only [depositS, hg]; exact h
  | some a =>
    cases hd : BankAccount.deposit a amount with
    | error e => simp only [depositS, hg, hd]; exact h
    | ok p =>
      rcases p with ⟨a1, r⟩
      obtain ⟨hsa, h0, ha1, -⟩ := BankAccount.deposit_ok_inv hd
      simp only [depositS, hg, hd]
      refine nonneg_set h ?_
      rw [ha1]
      exact add_nonneg (h a (Store.get_mem hg)) h0.le

theorem withdrawS_preserves_nonneg {s : Store} {n : Nat} {amount : ℚ}
    (h : ∀ b ∈ s, 0 ≤ b.balance) :
    ∀ b ∈ (withdrawS s n amount).1, 0 ≤ b.balance := by
  cases hg : Store.get s n with
  | none => simp only [withdrawS, hg]; exact h
  | some a =>
    cases hd : BankAccount.withdraw a amount with
    | error e => simp only [withdrawS, hg, hd]; exact h
    | ok p =>
      rcases p with ⟨a1, r⟩
      obtain ⟨hsa, h0, hle, ha1, -⟩ := BankAccount.withdraw_ok_inv hd
      simp only [withdrawS, hg, hd]
      refine nonneg_set h ?_
      rw [ha1]
      exact sub_nonneg.mpr hle

theorem setBalanceS_preserves_nonneg {s : Store} {n : Nat} {v : ℚ}
    (h : ∀ b ∈ s, 0 ≤ b.balance) :
    ∀ b ∈ (setBalanceS s n v).1, 0 ≤ b.balance := by
  cases hg : Store.get s n with
  | none => simp only [setBalanceS, hg]; exact h
  | some a =>
    by_cases hv : v < 0
    · simp only [setBalanceS, hg, if_pos hv]; exact h
    · simp only [setBalanceS, hg, if_neg hv]
      exact nonneg_set h (not_lt.mp hv)

theorem setStatusS_preserves_nonneg {s : Store} {n : Nat} {v : String}
    (h : ∀ b ∈ s, 0 ≤ b.balance) :
    ∀ b ∈ (setStatusS s n v).1, 0 ≤ b.balance := by
  cases hg : Store.get s n with
  | none => simp only [setStatusS, hg]; exact h
  | some a =>
    by_cases hv : v ≠ "active" ∧ v ≠ "inactive"
    · simp only [setStatusS, hg, if_pos hv]; exact h
    · simp only [setStatusS, hg, if_neg hv]
      exact nonneg_set h (h a (Store.get_mem hg))

theorem transferS_preserves_nonneg {s : Store} {srcN tgtN : Nat} {amount : ℚ}
    (h : ∀ b ∈ s, 0 ≤ b.balance) :
    ∀ b ∈ (transferS s srcN amount tgtN).1, 0 ≤ b.balance := by
  cases hg : Store.get s srcN with
  | none => simp only [transferS, hg]; exact h
  | some src =>
    by_cases hsa : src.status = "active"
    case neg => rw [transferS_eq_of_inactive hg hsa]; exact h
    cases hgt : Store.get s tgtN with
    | none =>
      simp only [transferS, hg, BankAccount.ensure_active_ok hsa, hgt]
      exact h
    | some tgt =>
      by_cases h0 : 0 < amount
      case neg =>
        rw [transferS_eq_of_bad_amount hg hsa hgt (not_lt.mp h0)]; exact h
      cases hw : BankAccount.withdraw src amount with
      | error e =>
        rw [transferS_eq_of_withdraw_error hg hsa hgt h0 hw]; exact h
      | ok p =>
        rcases p with ⟨src1, r1⟩
        obtain ⟨-, -, hle, hsrc1, -⟩ := BankAccount.withdraw_ok_inv hw
        have hsrc1b : 0 ≤ src1.balance := by
          rw [hsrc1]
          exact sub_nonneg.mpr hle
        by_cases hself : srcN = tgtN
        · subst hself
          have htgteq : tgt = src := by
            rw [hg] at hgt
            exact (Option.some.injEq tgt src).mp hgt.symm
          subst htgteq
          have hd := BankAccount.deposit_ok
            (show src1.status = "active" by rw [hsrc1]; exact hsa)
            h0
          rw [transferS_self_eq_of_ok hg hw hd]
          exact nonneg_set (nonneg_set (nonneg_set (nonneg_set h hsrc1b)
            (add_nonneg hsrc1b h0.le)) (add_nonneg hsrc1b h0.le))
            (add_nonneg hsrc1b h0.le)
        · cases hd : BankAccount.deposit tgt amount with
          | error e =>
            rw [transferS_eq_of_deposit_error hg hgt hself hw hd]
            exact nonneg_set h hsrc1b
          | ok q =>
            rcases q with ⟨tgt2, r2⟩
            obtain ⟨-, -, htgt2, -⟩ := BankAccount.deposit_ok_inv hd
            have htgt2b : 0 ≤ tgt2.balance := by
              rw [htgt2]
              exact add_nonneg (h tgt (Store.get_mem hgt)) h0.le
            rw [transferS_eq_of_ok hg hgt hself hw hd]
            exact nonneg_set (nonneg_set (nonneg_set (nonneg_set h hsrc1b)
              htgt2b) hsrc1b) htgt2b

theorem from_string_ok_inv {c c' : Nat} {d : String} {a : BankAccount}
    (h : BankAccount.from_string c d = .ok (a, c')) :
    0 ≤ a.balance ∧ a.account_number = c + 1 ∧ c' = c + 1 := by
  rcases hsp : splitChars ';' d.data with - | ⟨x1, - | ⟨x2, - | ⟨x3, - | ⟨x4, t⟩⟩⟩⟩ <;>
    simp only [BankAccount.from_string, hsp] at h
  case cons.cons.cons.nil =>
    cases hq : pyFloat x2 with
    | none => simp only [hq] at h; cases h
    | some q =>
      simp only [hq] at h
      cases hi : BankAccount.init c (String.mk (pyStrip x1)) q
          (String.mk (pyStrip x3)) with
      | error e => simp only [hi] at h; cases h
      | ok p =>
        rcases p with ⟨a1, c1⟩
        simp only [hi] at h
        obtain ⟨hq0, -, ha1, hc1⟩ := BankAccount.init_ok_inv hi
        cases h
        refine ⟨?_, ?_, hc1⟩
        · rw [ha1]; exact hq0
        · rw [ha1]
  all_goals cases h

theorem step_preserves_nonneg {sys : Sys} {op : Op}
    (h : ∀ b ∈ sys.store, 0 ≤ b.balance) :
    ∀ b ∈ (step sys op).store, 0 ≤ b.balance := by
  cases op with
  | create hld i st =>
    show ∀ b ∈ (createS sys hld i st).1.store, 0 ≤ b.balance
    cases hi : BankAccount.init sys.counter hld i st with
    | error e => simp only [createS, hi]; exact h
    | ok p =>
      rcases p with ⟨a, c⟩
      obtain ⟨h0, -, ha, -⟩ := BankAccount.init_ok_inv hi
      simp only [createS, hi]
      intro b hb
      rcases List.mem_append.mp hb with hb | hb
      · exact h b hb
      · rw [List.mem_singleton.mp hb, ha]
        exact h0
  | fromString d =>
    show ∀ b ∈ (fromStringS sys d).1.store, 0 ≤ b.balance
    cases hf : BankAccount.from_string sys.counter d with
    | error e => simp only [fromStringS, hf]; exact h
    | ok p =>
      rcases p with ⟨a, c⟩
      obtain ⟨h0, -, -⟩ := from_string_ok_inv hf
      simp only [fromStringS, hf]
      intro b hb
      rcases List.mem_append.mp hb with hb | hb
      · exact h b hb
      · rw [List.mem_singleton.mp hb]
        exact h0
  | deposit n amt => exact depositS_preserves_nonneg h
  | withdraw n amt => exact withdrawS_preserves_nonneg h
  | transfer srcN amt tgtN => exact transferS_preserves_nonneg h
  | setBalance n v => exact setBalanceS_preserves_nonneg h
  | setStatus n v => exact setStatusS_preserves_nonneg h

theorem run_preserves_nonneg (ops : List Op) :
    ∀ sys : Sys, (∀ b ∈ sys.store, 0 ≤ b.balance) →
    ∀ b ∈ (run sys ops).store, 0 ≤ b.balance := by
  induction ops with
  | nil => intro sys h; exact h
  | cons op rest ih =>
    intro sys h
    exact ih (step sys op) (step_preserves_nonneg h)

/-! ### Account numbers: monotonicity and distinctness -/

theorem accountNumbers_set (s : Store) (a : BankAccount) :
    accountNumbers (Store.set s a) = accountNumbers s :=
  Store.set_map_number s a

theorem depositS_numbers (s : Store) (n : Nat) (amount : ℚ) :
    accountNumbers (depositS s n amount).1 = accountNumbers s := by
  cases hg : Store.get s n with
  | none => simp only [depositS, hg]
  | some a =>
    cases hd : BankAccount.deposit a amount with
    | error e => simp only [depositS, hg, hd]
    | ok p =>
      rcases p with ⟨a1, r⟩
      simp only [depositS, hg, hd]
      exact accountNumbers_set s a1

theorem withdrawS_numbers (s : Store) (n : Nat) (amount : ℚ) :
    accountNumbers (withdrawS s n amount).1 = accountNumbers s := by
  cases hg : Store.get s n with
  | none => simp only [withdrawS, hg]
  | some a =>
    cases hd : BankAccount.withdraw a amount with
    | error e => simp only [withdrawS, hg, hd]
    | ok p =>
      rcases p with ⟨a1, r⟩
      simp only [withdrawS, hg, hd]
      exact accountNumbers_set s a1

theorem setBalanceS_numbers (s : Store) (n : Nat) (v : ℚ) :
    accountNumbers (setBalanceS s n v).1 = accountNumbers s := by
  cases hg : Store.get s n with
  | none => simp only [setBalanceS, hg]
  | some a =>
    by_cases hv : v < 0
    · simp only [setBalanceS, hg, if_pos hv]
    · simp only [setBalanceS, hg, if_neg hv]
      exact accountNumbers_set s _

theorem setStatusS_numbers (s : Store) (n : Nat) (v : String) :
    accountNumbers (setStatusS s n v).1 = accountNumbers s := by
  cases hg : Store.get s n with
  | none => simp only [setStatusS, hg]
  | some a =>
    by_cases hv : v ≠ "active" ∧ v ≠ "inactive"
    · simp only [setStatusS, hg, if_pos hv]
    · simp only [setStatusS, hg, if_neg hv]
      exact accountNumbers_set s _

theorem transferS_numbers (s : Store) (srcN tgtN : Nat) (amount : ℚ) :
    accountNumbers (transferS s srcN amount tgtN).1 = accountNumbers s := by
  cases hg : Store.get s srcN with
  | none => simp only [transferS, hg]
  | some src =>
    by_cases hsa : src.status = "active"
    case neg => rw [transferS_eq_of_inactive hg hsa]
    cases hgt : Store.get s tgtN with
    | none => simp only [transferS, hg, BankAccount.ensure_active_ok hsa, hgt]
    | some tgt =>
      by_cases h0 : 0 < amount
      case neg => rw [transferS_eq_of_bad_amount hg hsa hgt (not_lt.mp h0)]
      cases hw : BankAccount.withdraw src amount with
      | error e => rw [transferS_eq_of_withdraw_error hg hsa hgt h0 hw]
      | ok p =>
        rcases p with ⟨src1, r1⟩
        obtain ⟨-, -, hle, hsrc1, -⟩ := BankAccount.withdraw_ok_inv hw
        by_cases hself : srcN = tgtN
        · subst hself
          have htgteq : tgt = src := by
            rw [hg] at hgt
            exact (Option.some.injEq tgt src).mp hgt.symm
          subst htgteq
          have hd := BankAccount.deposit_ok
            (show src1.status = "active" by rw [hsrc1]; exact hsa)
            h0
          rw [transferS_self_eq_of_ok hg hw hd]
          simp only [Prod.fst]
          rw [accountNumbers_set, accountNumbers_set, accountNumbers_set,
            accountNumbers_set]
        · cases hd : BankAccount.deposit tgt amount with
          | error e =>
            rw [transferS_eq_of_deposit_error hg hgt hself hw hd]
            exact accountNumbers_set s src1
          | ok q =>
            rcases q with ⟨tgt2, r2⟩
            rw [transferS_eq_of_ok hg hgt hself hw hd]
            simp only [Prod.fst]
            rw [accountNumbers_set, accountNumbers_set, accountNumbers_set,
              accountNumbers_set]

theorem counterInv_append {sys : Sys} {a : BankAccount} {c : Nat}
    (h : CounterInv sys) (ha : a.account_number = sys.counter + 1)
    (hc : c = sys.counter + 1) :
    CounterInv ⟨sys.store ++ [a], c⟩ := by
  obtain ⟨hp, hb⟩ := h
  constructor
  · show ((sys.store ++ [a]).map (·.account_number)).Pairwise (· < ·)
    rw [List.map_append, List.pairwise_append]
    refine ⟨hp, List.pairwise_singleton .. , ?_⟩
    intro m hm y hy
    have hy1 : y = a.account_number := by simpa using hy
    rw [hy1, ha]
    exact Nat.lt_succ_of_le (hb m hm)
  · intro m hm
    show m ≤ c
    rw [hc]
    have hm2 : m ∈ (sys.store.map (·.account_number)) ++ [a.account_number] := by
      simpa [accountNumbers, List.map_append] using hm
    rcases List.mem_append.mp hm2 with hm3 | hm3
    · exact Nat.le_succ_of_le (hb m hm3)
    · rw [List.mem_singleton.mp hm3, ha]

theorem counterInv_store_congr {sys : Sys} {s1 : Store}
    (h : CounterInv sys) (he : accountNumbers s1 = accountNumbers sys.store) :
    CounterInv { sys with store := s1 } := by
  obtain ⟨hp, hb⟩ := h
  constructor
  · show (accountNumbers s1).Pairwise (· < ·)
    rw [he]
    exact hp
  · intro m hm
    show m ≤ sys.counter
    have hm1 : m ∈ accountNumbers s1 := hm
    rw [he] at hm1
    exact hb m hm1

theorem step_preserves_counterInv {sys : Sys} {op : Op} (h : CounterInv sys) :
    CounterInv (step sys op) := by
  cases op with
  | create hld i st =>
    show CounterInv (createS sys hld i st).1
    cases hi : BankAccount.init sys.counter hld i st with
    | error e => simp only [createS, hi]; exact h
    | ok p =>
      rcases p with ⟨a, c⟩
      obtain ⟨-, -, ha, hc⟩ := BankAccount.init_ok_inv hi
      simp only [createS, hi]
      exact counterInv_append h (by rw [ha]) hc
  | fromString d =>
    show CounterInv (fromStringS sys d).1
    cases hf : BankAccount.from_string sys.counter d with
    | error e => simp only [fromStringS, hf]; exact h
    | ok p =>
      rcases p with ⟨a, c⟩
      obtain ⟨-, ha, hc⟩ := from_string_ok_inv hf
      simp only [fromStringS, hf]
      exact counterInv_append h ha hc
  | deposit n amt =>
    exact counterInv_store_congr h (depositS_numbers sys.store n amt)
  | withdraw n amt =>
    exact counterInv_store_congr h (withdrawS_numbers sys.store n amt)
  | transfer srcN amt tgtN =>
    exact counterInv_store_congr h (transferS_numbers sys.store srcN tgtN amt)
  | setBalance n v =>
    exact counterInv_store_congr h (setBalanceS_numbers sys.store n v)
  | setStatus n v =>
    exact counterInv_store_congr h (setStatusS_numbers sys.store n v)

theorem run_preserves_counterInv (ops : List Op) :
    ∀ sys : Sys, CounterInv sys → CounterInv (run sys ops) := by
  induction ops with
  | nil => intro sys h; exact h
  | cons op rest ih =>
    intro sys h
    exact ih (step sys op) (step_preserves_counterInv h)

theorem counterInv_sysInit : CounterInv sysInit :=
  ⟨List.Pairwise.nil, fun m hm => absurd hm (List.not_mem_nil m)⟩

/-! ### Reading the accounts back after a successful transfer -/

theorem transferS_ok_gets {s : Store} {srcN tgtN : Nat} {amount r1 r2 : ℚ}
    {src tgt src1 tgt2 : BankAccount}
    (hs : Store.get s srcN = some src) (ht : Store.get s tgtN = some tgt)
    (hne : srcN ≠ tgtN)
    (hw : BankAccount.withdraw src amount = .ok (src1, r1))
    (hd : BankAccount.deposit tgt amount = .ok (tgt2, r2)) :
    (transferS s srcN amount tgtN).2 = .ok true ∧
    Store.get (transferS s srcN amount tgtN).1 srcN =
      some { src1 with transactions := src1.transactions ++
        [⟨"Transfer to", amount, src1.balance, some tgtN⟩] } ∧
    Store.get (transferS s srcN amount tgtN).1 tgtN =
      some { tgt2 with transactions := tgt2.transactions ++
        [⟨"Transfer from", amount, tgt2.balance, some srcN⟩] } := by
  have hsn := Store.get_number hs
  have htn := Store.get_number ht
  obtain ⟨-, -, -, hsrc1, -⟩ := BankAccount.withdraw_ok_inv hw
  obtain ⟨-, -, htgt2, -⟩ := BankAccount.deposit_ok_inv hd
  have hn1 : src1.account_number = src.account_number := by rw [hsrc1]
  have hn2 : tgt2.account_number = tgt.account_number := by rw [htgt2]
  have hnst : src1.account_number ≠ tgt2.account_number := by
    rw [hn1, hsn, hn2, htn]; exact hne
  have hnts : tgt2.account_number ≠ src1.account_number := fun he => hnst he.symm
  rw [transferS_eq_of_ok hs ht hne hw hd]
  refine ⟨rfl, ?_, ?_⟩
  · have g1 : Store.get (Store.set s src1) srcN = some src1 :=
      Store.get_set_self hs hn1
    have g2 : Store.get (Store.set (Store.set s src1) tgt2) srcN = some src1 :=
      Store.get_set_other g1 hnst
    have g3 : Store.get (Store.set (Store.set (Store.set s src1) tgt2)
        { src1 with transactions := src1.transactions ++
          [⟨"Transfer to", amount, src1.balance, some tgtN⟩] }) srcN =
        some { src1 with transactions := src1.transactions ++
          [⟨"Transfer to", amount, src1.balance, some tgtN⟩] } :=
      Store.get_set_self g2 rfl
    exact Store.get_set_other g3 hnst
  · have hts : tgt.account_number ≠ src1.account_number := by
      rw [htn, hn1, hsn]; exact fun he => hne he.symm
    have g1 : Store.get (Store.set s src1) tgtN = some tgt :=
      Store.get_set_other ht hts
    have g2 : Store.get (Store.set (Store.set s src1) tgt2) tgtN = some tgt2 :=
      Store.get_set_self g1 hn2
    have g3 : Store.get (Store.set (Store.set (Store.set s src1) tgt2)
        { src1 with transactions := src1.transactions ++
          [⟨"Transfer to", amount, src1.balance, some tgtN⟩] }) tgtN =
        some tgt2 :=
      Store.get_set_other g2 hnts
    exact Store.get_set_self g3 rfl

theorem transferS_self_gets {s : Store} {n : Nat} {amount r1 r2 : ℚ}
    {src a1 a2 : BankAccount}
    (hs : Store.get s n = some src)
    (hw : BankAccount.withdraw src amount = .ok (a1, r1))
    (hd : BankAccount.deposit a1 amount = .ok (a2, r2)) :
    (transferS s n amount n).2 = .ok true ∧
    Store.get (transferS s n amount n).1 n =
      some { a2 with transactions := (a2.transactions ++
        [⟨"Transfer to", amount, a2.balance, some n⟩]) ++
        [⟨"Transfer from", amount, a2.balance, some n⟩] } := by
  obtain ⟨-, -, -, hsrc1, -⟩ := BankAccount.withdraw_ok_inv hw
  obtain ⟨-, -, htgt2, -⟩ := BankAccount.deposit_ok_inv hd
  have hn1 : a1.account_number = src.account_number := by rw [hsrc1]
  have hn2 : a2.account_number = a1.account_number := by rw [htgt2]
  rw [transferS_self_eq_of_ok hs hw hd]
  refine ⟨rfl, ?_⟩
  have g1 : Store.get (Store.set s a1) n = some a1 := Store.get_set_self hs hn1
  have g2 : Store.get (Store.set (Store.set s a1) a2) n = some a2 :=
    Store.get_set_self g1 hn2
  have g3 : Store.get (Store.set (Store.set (Store.set s a1) a2)
      { a2 with transactions := a2.transactions ++
        [⟨"Transfer to", amount, a2.balance, some n⟩] }) n =
      some { a2 with transactions := a2.transactions ++
        [⟨"Transfer to", amount, a2.balance, some n⟩] } :=
    Store.get_set_self g2 rfl
  exact Store.get_set_self g3 rfl

/-! ### The claims -/

/-- C3: on an active account, `withdraw a` with `0 < a ≤ balance` succeeds,
subtracts `a` from the balance, appends one Withdraw record and returns the
new balance; with `0 < a` and `a > balance` it raises `InsufficientFundsError`
carrying the current balance and the requested amount and leaves the
balance and history unchanged. -/
theorem spec_C3_thm (a : BankAccount) (amount : ℚ) (h1 : a.status = "active") :
    (0 < amount → amount ≤ a.balance →
      BankAccount.withdraw a amount =
        .ok ({ a with
               balance := a.balance - amount
               transactions := a.transactions ++
                 [⟨"Withdraw", amount, a.balance - amount, none⟩] },
             a.balance - amount)) ∧
    (0 < amount → a.balance < amount →
      BankAccount.withdraw a amount =
        .error (.insufficientFunds a.balance amount) ∧
      ∀ (s : Store) (n : Nat), Store.get s n = some a →
        withdrawS s n amount =
          (s, .error (.insufficientFunds a.balance amount))) := by
  constructor
  · intro h2 h3
    exact BankAccount.withdraw_ok h1 h2 h3
  · intro h2 h3
    have hw := BankAccount.withdraw_error_insufficient h1 h2 h3
    exact ⟨hw, fun s n hs => withdrawS_eq_error hs hw⟩

/-- Witness for C3 at a concrete account and the amounts 40 and 2000. -/
theorem spec_C3_witness :
    aliceActive.status = "active" ∧ 0 < (40 : ℚ) ∧
    (40 : ℚ) ≤ aliceActive.balance ∧
    BankAccount.withdraw aliceActive 40 =
      .ok ({ aliceActive with
             balance := aliceActive.balance - 40
             transactions := aliceActive.transactions ++
               [⟨"Withdraw", 40, aliceActive.balance - 40, none⟩] },
           aliceActive.balance - 40) ∧
    aliceActive.balance < 2000 ∧
    BankAccount.withdraw aliceActive 2000 =
      .error (.insufficientFunds aliceActive.balance 2000) :=
  ⟨rfl, by decide, by decide,
   (spec_C3_thm aliceActive 40 rfl).1 (by decide) (by decide),
   by decide,
   ((spec_C3_thm aliceActive 2000 rfl).2 (by decide) (by decide)).1⟩

/-- C6: on an active account, `deposit a` and `withdraw a` with `a ≤ 0`
(zero or negative) both raise `InvalidAmountError` and leave the account's
state untouched. -/
theorem spec_C6_thm (s : Store) (n : Nat) (a : BankAccount) (amount : ℚ)
    (hs : Store.get s n = some a) (h1 : a.status = "active")
    (h2 : amount ≤ 0) :
    depositS s n amount = (s, .error .invalidAmount) ∧
    withdrawS s n amount = (s, .error .invalidAmount) :=
  ⟨depositS_eq_error hs (BankAccount.deposit_error_amount h1 h2),
   withdrawS_eq_error hs (BankAccount.withdraw_error_amount h1 h2)⟩

/-- Witness for C6 at a concrete account and the amounts 0 and -5. -/
theorem spec_C6_witness :
    Store.get [aliceActive] 1001 = some aliceActive ∧
    aliceActive.status = "active" ∧ (0 : ℚ) ≤ 0 ∧ (-5 : ℚ) ≤ 0 ∧
    (depositS [aliceActive] 1001 0 = ([aliceActive], .error .invalidAmount) ∧
     withdrawS [aliceActive] 1001 0 = ([aliceActive], .error .invalidAmount)) ∧
    (depositS [aliceActive] 1001 (-5) =
      ([aliceActive], .error .invalidAmount) ∧
     withdrawS [aliceActive] 1001 (-5) =
      ([aliceActive], .error .invalidAmount)) :=
  ⟨rfl, rfl, by decide, by decide,
   spec_C6_thm [aliceActive] 1001 aliceActive 0 rfl rfl (by decide),
   spec_C6_thm [aliceActive] 1001 aliceActive (-5) rfl rfl (by decide)⟩

/-- C7: every financial operation on an inactive account — deposit,
withdraw, and transfer as source — raises `InvalidAccountError` and leaves
that account's state untouched. -/
theorem spec_C7_thm (s : Store) (n : Nat) (a : BankAccount) (amount : ℚ)
    (tgtN : Nat) (hs : Store.get s n = some a)
    (h1 : a.status = "inactive") :
    depositS s n amount = (s, .error .invalidAccount) ∧
    withdrawS s n amount = (s, .error .invalidAccount) ∧
    transferS s n amount tgtN = (s, .error .invalidAccount) := by
  have hna : a.status ≠ "active" := by rw [h1]; decide
  exact ⟨depositS_eq_error hs (BankAccount.deposit_error_inactive hna),
         withdrawS_eq_error hs (BankAccount.withdraw_error_inactive hna),
         transferS_eq_of_inactive hs hna⟩

/-- Witness for C7 at a concrete inactive account. -/
theorem spec_C7_witness :
    Store.get [bobInactive] 1002 = some bobInactive ∧
    bobInactive.status = "inactive" ∧
    (depositS [bobInactive] 1002 10 =
      ([bobInactive], .error .invalidAccount) ∧
     withdrawS [bobInactive] 1002 10 =
      ([bobInactive], .error .invalidAccount) ∧
     transferS [bobInactive] 1002 10 1001 =
      ([bobInactive], .error .invalidAccount)) :=
  ⟨rfl, rfl, spec_C7_thm [bobInactive] 1002 bobInactive 10 1001 rfl rfl⟩

/-- C4: a transfer between two distinct active accounts with
`0 < a ≤ source balance` succeeds (returns True), debits the source,
credits the target, and records a TransferOut on the source (carrying the
target's number) and a TransferIn on the target (carrying the source's
number). -/
theorem spec_C4_thm (s : Store) (srcN tgtN : Nat) (amount : ℚ)
    (src tgt : BankAccount)
    (hs : Store.get s srcN = some src) (ht : Store.get s tgtN = some tgt)
    (hne : srcN ≠ tgtN) (hsa : src.status = "active")
    (hta : tgt.status = "active") (h0 : 0 < amount)
    (hle : amount ≤ src.balance) :
    (transferS s srcN amount tgtN).2 = .ok true ∧
    Store.get (transferS s srcN amount tgtN).1 srcN =
      some { src with
             balance := src.balance - amount
             transactions := src.transactions ++
               [⟨"Withdraw", amount, src.balance - amount, none⟩,
                ⟨"Transfer to", amount, src.balance - amount, some tgtN⟩] } ∧
    Store.get (transferS s srcN amount tgtN).1 tgtN =
      some { tgt with
             balance := tgt.balance + amount
             transactions := tgt.transactions ++
               [⟨"Deposit", amount, tgt.balance + amount, none⟩,
                ⟨"Transfer from", amount, tgt.balance + amount, some srcN⟩] } := by
  have hw := BankAccount.withdraw_ok hsa h0 hle
  have hd := BankAccount.deposit_ok hta h0
  obtain ⟨c1, c2, c3⟩ := transferS_ok_gets hs ht hne hw hd
  refine ⟨c1, ?_, ?_⟩
  · rw [c2]
    simp [List.append_assoc]
  · rw [c3]
    simp [List.append_assoc]

/-- Witness for C4 at two concrete active accounts and the amount 40. -/
theorem spec_C4_witness :
    Store.get [aliceActive, bobActive] 1001 = some aliceActive ∧
    Store.get [aliceActive, bobActive] 1002 = some bobActive ∧
    (1001 : Nat) ≠ 1002 ∧ aliceActive.status = "active" ∧
    bobActive.status = "active" ∧ 0 < (40 : ℚ) ∧
    (40 : ℚ) ≤ aliceActive.balance ∧
    ((transferS [aliceActive, bobActive] 1001 40 1002).2 = .ok true ∧
     Store.get (transferS [aliceActive, bobActive] 1001 40 1002).1 1001 =
      some { aliceActive with
             balance := aliceActive.balance - 40
             transactions := aliceActive.transactions ++
               [⟨"Withdraw", 40, aliceActive.balance - 40, none⟩,
                ⟨"Transfer to", 40, aliceActive.balance - 40, some 1002⟩] } ∧
     Store.get (transferS [aliceActive, bobActive] 1001 40 1002).1 1002 =
      some { bobActive with
             balance := bobActive.balance + 40
             transactions := bobActive.transactions ++
               [⟨"Deposit", 40, bobActive.balance + 40, none⟩,
                ⟨"Transfer from", 40, bobActive.balance + 40, some 1001⟩] }) :=
  ⟨rfl, rfl, by decide, rfl, rfl, by decide, by decide,
   spec_C4_thm [aliceActive, bobActive] 1001 1002 40 aliceActive bobActive
     rfl rfl (by decide) rfl rfl (by decide) (by decide)⟩

/-- C10: a self-transfer on an active account with `0 < a ≤ balance`
succeeds (returns True), leaves the balance unchanged under exact
arithmetic, and appends exactly four records — Withdraw, Deposit,
TransferOut, TransferIn — to the single account's history. -/
theorem spec_C10_thm (s : Store) (n : Nat) (amount : ℚ) (a : BankAccount)
    (hs : Store.get s n = some a) (h1 : a.status = "active")
    (h2 : 0 < amount) (h3 : amount ≤ a.balance) :
    (transferS s n amount n).2 = .ok true ∧
    Store.get (transferS s n amount n).1 n =
      some { a with transactions := a.transactions ++
        [⟨"Withdraw", amount, a.balance - amount, none⟩,
         ⟨"Deposit", amount, a.balance, none⟩,
         ⟨"Transfer to", amount, a.balance, some n⟩,
         ⟨"Transfer from", amount, a.balance, some n⟩] } := by
  have hw := BankAccount.withdraw_ok h1 h2 h3
  have hd := BankAccount.deposit_ok
    (show ({ a with
             balance := a.balance - amount
             transactions := a.transactions ++
               [⟨"Withdraw", amount, a.balance - amount, none⟩] } :
         BankAccount).status = "active" from h1) h2
  obtain ⟨c1, c2⟩ := transferS_self_gets hs hw hd
  refine ⟨c1, ?_⟩
  rw [c2]
  simp [List.append_assoc, sub_add_cancel]

/-- Witness for C10: a concrete self-transfer of 40 on an active account
holding 100. -/
theorem spec_C10_witness :
    Store.get [aliceActive] 1001 = some aliceActive ∧
    aliceActive.status = "active" ∧ 0 < (40 : ℚ) ∧
    (40 : ℚ) ≤ aliceActive.balance ∧
    ((transferS [aliceActive] 1001 40 1001).2 = .ok true ∧
     Store.get (transferS [aliceActive] 1001 40 1001).1 1001 =
      some { aliceActive with transactions := aliceActive.transactions ++
        [⟨"Withdraw", 40, aliceActive.balance - 40, none⟩,
         ⟨"Deposit", 40, aliceActive.balance, none⟩,
         ⟨"Transfer to", 40, aliceActive.balance, some 1001⟩,
         ⟨"Transfer from", 40, aliceActive.balance, some 1001⟩] }) :=
  ⟨rfl, rfl, by decide, by decide,
   spec_C10_thm [aliceActive] 1001 40 aliceActive rfl rfl
     (by decide) (by decide)⟩

/-- Counterexample to C2 as stated: a successful transfer appends TWO
records to the source's history (Withdraw and TransferOut), not exactly
one — the source history grows from 1 to 3 records. -/
theorem spec_C2_counterexample :
    (transferS [aliceActive, bobActive] 1001 40 1002).2 = .ok true ∧
    (Store.get [aliceActive, bobActive] 1001).map
      (·.transactions.length) = some 1 ∧
    (Store.get (transferS [aliceActive, bobActive] 1001 40 1002).1 1001).map
      (·.transactions.length) = some 3 ∧
    (Store.get (transferS [aliceActive, bobActive] 1001 40 1002).1 1002).map
      (·.transactions.length) = some 3 :=
  ⟨rfl, rfl, rfl, rfl⟩

/-- C2 (amended): deposit and withdraw each append exactly one record to
the acting account's history, and a successful transfer appends exactly
FOUR records in total — exactly two to the source (a Withdraw then a
TransferOut) and exactly two to the target (a Deposit then a TransferIn);
each appended record's `resulting_balance` equals the owning account's
balance at the instant it is appended, and the old history is preserved as
a prefix (nothing removed or reordered). -/
theorem spec_C2_thm :
    (∀ (a a1 : BankAccount) (amount r : ℚ),
      BankAccount.deposit a amount = .ok (a1, r) →
      a1.transactions = a.transactions ++
        [⟨"Deposit", amount, a1.balance, none⟩]) ∧
    (∀ (a a1 : BankAccount) (amount r : ℚ),
      BankAccount.withdraw a amount = .ok (a1, r) →
      a1.transactions = a.transactions ++
        [⟨"Withdraw", amount, a1.balance, none⟩]) ∧
    (∀ (s : Store) (srcN tgtN : Nat) (amount : ℚ) (src tgt : BankAccount),
      Store.get s srcN = some src → Store.get s tgtN = some tgt →
      srcN ≠ tgtN → src.status = "active" → tgt.status = "active" →
      0 < amount → amount ≤ src.balance →
      ∃ src1 tgt1 : BankAccount,
        Store.get (transferS s srcN amount tgtN).1 srcN = some src1 ∧
        Store.get (transferS s srcN amount tgtN).1 tgtN = some tgt1 ∧
        src1.transactions = src.transactions ++
          [⟨"Withdraw", amount, src.balance - amount, none⟩,
           ⟨"Transfer to", amount, src1.balance, some tgtN⟩] ∧
        tgt1.transactions = tgt.transactions ++
          [⟨"Deposit", amount, tgt.balance + amount, none⟩,
           ⟨"Transfer from", amount, tgt1.balance, some srcN⟩]) := by
  refine ⟨?_, ?_, ?_⟩
  · intro a a1 amount r h
    obtain ⟨-, -, ha1, -⟩ := BankAccount.deposit_ok_inv h
    rw [ha1]
  · intro a a1 amount r h
    obtain ⟨-, -, -, ha1, -⟩ := BankAccount.withdraw_ok_inv h
    rw [ha1]
  · intro s srcN tgtN amount src tgt hs ht hne hsa hta h0 hle
    have hw := BankAccount.withdraw_ok hsa h0 hle
    have hd := BankAccount.deposit_ok hta h0
    obtain ⟨-, c2, c3⟩ := transferS_ok_gets hs ht hne hw hd
    refine ⟨_, _, c2, c3, ?_, ?_⟩
    · simp [List.append_assoc]
    · simp [List.append_assoc]

/-- Witness for C2 at concrete inputs: a deposit of 40 and a transfer of 40
between two concrete active accounts. -/
theorem spec_C2_witness :
    BankAccount.deposit aliceActive 40 =
      .ok ({ aliceActive with
             balance := aliceActive.balance + 40
             transactions := aliceActive.transactions ++
               [⟨"Deposit", 40, aliceActive.balance + 40, none⟩] },
           aliceActive.balance + 40) ∧
    ({ aliceActive with
       balance := aliceActive.balance + 40
       transactions := aliceActive.transactions ++
         [⟨"Deposit", 40, aliceActive.balance + 40, none⟩] } :
      BankAccount).transactions = aliceActive.transactions ++
        [⟨"Deposit", 40, ({ aliceActive with
             balance := aliceActive.balance + 40
             transactions := aliceActive.transactions ++
               [⟨"Deposit", 40, aliceActive.balance + 40, none⟩] } :
           BankAccount).balance, none⟩] ∧
    (∃ src1 tgt1 : BankAccount,
      Store.get (transferS [aliceActive, bobActive] 1001 40 1002).1 1001 =
        some src1 ∧
      Store.get (transferS [aliceActive, bobActive] 1001 40 1002).1 1002 =
        some tgt1 ∧
      src1.transactions = aliceActive.transactions ++
        [⟨"Withdraw", 40, aliceActive.balance - 40, none⟩,
         ⟨"Transfer to", 40, src1.balance, some 1002⟩] ∧
      tgt1.transactions = bobActive.transactions ++
        [⟨"Deposit", 40, bobActive.balance + 40, none⟩,
         ⟨"Transfer from", 40, tgt1.balance, some 1001⟩]) :=
  ⟨BankAccount.deposit_ok rfl (by decide),
   spec_C2_thm.1 aliceActive _ 40 (aliceActive.balance + 40)
     (BankAccount.deposit_ok rfl (by decide)),
   spec_C2_thm.2.2 [aliceActive, bobActive] 1001 1002 40 aliceActive
     bobActive rfl rfl (by decide) rfl rfl (by decide) (by decide)⟩

/-- Counterexample to C1 as stated: a transfer from an active source
(balance 100) to an INACTIVE target fails with `InvalidAccountError`, yet
the source account has been mutated by the failed call — its history has
grown from 1 to 2 records (the Withdraw of the debit). -/
theorem spec_C1_counterexample :
    (transferS [aliceActive, bobInactive] 1001 40 1002).2 =
      .error .invalidAccount ∧
    (Store.get [aliceActive, bobInactive] 1001).map
      (·.transactions.length) = some 1 ∧
    (Store.get (transferS [aliceActive, bobInactive] 1001 40 1002).1 1001).map
      (·.transactions.length) = some 2 :=
  ⟨rfl, rfl, rfl⟩

/-- C1 (amended): deposit, withdraw, the constructor and fromString raise
before any state mutation — on any failure the state is exactly as before
the call.  For transfer, any failure of the source-side checks (inactive
source, non-positive amount, insufficient funds) also leaves all state
unchanged; but a transfer to an inactive target fails only AFTER the
source has been debited and a Withdraw record appended to it, so
partial-transfer state is reachable exactly in that case. -/
theorem spec_C1_thm :
    (∀ (s s1 : Store) (n : Nat) (amount : ℚ) (e : AccountError),
      depositS s n amount = (s1, .error e) → s1 = s) ∧
    (∀ (s s1 : Store) (n : Nat) (amount : ℚ) (e : AccountError),
      withdrawS s n amount = (s1, .error e) → s1 = s) ∧
    (∀ (sys sys1 : Sys) (h : String) (i : ℚ) (st : String)
      (e : AccountError), createS sys h i st = (sys1, .error e) →
      sys1 = sys) ∧
    (∀ (sys sys1 : Sys) (d : String) (e : AccountError),
      fromStringS sys d = (sys1, .error e) → sys1 = sys) ∧
    (∀ (s : Store) (srcN tgtN : Nat) (amount : ℚ) (src tgt : BankAccount),
      Store.get s srcN = some src → Store.get s tgtN = some tgt →
      (src.status ≠ "active" ∨ amount ≤ 0 ∨ src.balance < amount) →
      (transferS s srcN amount tgtN).1 = s) ∧
    (∀ (s : Store) (srcN tgtN : Nat) (amount : ℚ) (src tgt : BankAccount),
      Store.get s srcN = some src → Store.get s tgtN = some tgt →
      srcN ≠ tgtN → src.status = "active" → tgt.status ≠ "active" →
      0 < amount → amount ≤ src.balance →
      transferS s srcN amount tgtN =
        (Store.set s
          { src with
            balance := src.balance - amount
            transactions := src.transactions ++
              [⟨"Withdraw", amount, src.balance - amount, none⟩] },
         .error .invalidAccount)) := by
  refine ⟨?_, ?_, ?_, ?_, ?_, ?_⟩
  · intro s s1 n amount e h
    exact depositS_error_unchanged h
  · intro s s1 n amount e h
    exact withdrawS_error_unchanged h
  · intro sys sys1 h i st e he
    exact createS_error_unchanged he
  · intro sys sys1 d e he
    exact fromStringS_error_unchanged he
  · intro s srcN tgtN amount src tgt hs ht hcase
    by_cases hsa : src.status = "active"
    · rcases hcase with h | h | h
      · exact absurd hsa h
      · rw [transferS_eq_of_bad_amount hs hsa ht h]
      · by_cases h0 : 0 < amount
        · rw [transferS_eq_of_withdraw_error hs hsa ht h0
            (BankAccount.withdraw_error_insufficient hsa h0 h)]
        · rw [transferS_eq_of_bad_amount hs hsa ht (not_lt.mp h0)]
    · rw [transferS_eq_of_inactive hs hsa]
  · intro s srcN tgtN amount src tgt hs ht hne hsa hti h0 hle
    exact transferS_eq_of_deposit_error hs ht hne
      (BankAccount.withdraw_ok hsa h0 hle)
      (BankAccount.deposit_error_inactive hti)

/-- Witness for C1: a failing deposit on a concrete inactive account leaves
the store unchanged, and the concrete inactive-target transfer produces
exactly the partially-mutated store the amended claim describes. -/
theorem spec_C1_witness :
    depositS [bobInactive] 1002 10 = ([bobInactive], .error .invalidAccount) ∧
    ([bobInactive] : Store) = [bobInactive] ∧
    (1001 : Nat) ≠ 1002 ∧ aliceActive.status = "active" ∧
    bobInactive.status ≠ "active" ∧ 0 < (40 : ℚ) ∧
    (40 : ℚ) ≤ aliceActive.balance ∧
    transferS [aliceActive, bobInactive] 1001 40 1002 =
      (Store.set [aliceActive, bobInactive]
        { aliceActive with
          balance := aliceActive.balance - 40
          transactions := aliceActive.transactions ++
            [⟨"Withdraw", 40, aliceActive.balance - 40, none⟩] },
       .error .invalidAccount) :=
  ⟨rfl, spec_C1_thm.1 [bobInactive] [bobInactive] 1002 10 .invalidAccount rfl,
   by decide, rfl, by decide, by decide, by decide,
   spec_C1_thm.2.2.2.2.2 [aliceActive, bobInactive] 1001 1002 40
     aliceActive bobInactive rfl rfl (by decide) rfl (by decide)
     (by decide) (by decide)⟩

/-- Every error `from_string` ever raises is `InvalidAccountError`: the
parser wraps any underlying failure into that single error kind. -/
theorem from_string_error_inv {c : Nat} {d : String} {e : AccountError}
    (h : BankAccount.from_string c d = .error e) : e = .invalidAccount := by
  rcases hsp : splitChars ';' d.data with - | ⟨x1, - | ⟨x2, - | ⟨x3, - | ⟨x4, t⟩⟩⟩⟩ <;>
    simp only [BankAccount.from_string, hsp] at h
  case cons.cons.cons.nil =>
    cases hq : pyFloat x2 with
    | none =>
      simp only [hq] at h
      injection h with h1
      exact h1.symm
    | some q =>
      simp only [hq] at h
      cases hi : BankAccount.init c (String.mk (pyStrip x1)) q
          (String.mk (pyStrip x3)) with
      | error e1 =>
        simp only [hi] at h
        injection h with h1
        exact h1.symm
      | ok p =>
        rcases p with ⟨a1, c1⟩
        simp only [hi] at h
        cases h
  all_goals injection h with h1
  all_goals exact h1.symm

/-- C5: starting from the fresh process state, no sequence of calls —
constructions, deposits, withdrawals, transfers (including failing and
partially-failing ones), balance assignments, status assignments — ever
produces an account with a negative balance. -/
theorem spec_C5_thm (ops : List Op) :
    ∀ a ∈ (run sysInit ops).store, 0 ≤ a.balance :=
  run_preserves_nonneg ops sysInit (fun b hb => absurd hb (List.not_mem_nil b))

/-- Witness for C5 on a concrete call sequence: create an account with 5,
withdraw 3; the resulting account is in the store with balance ≥ 0. -/
theorem spec_C5_witness :
    (⟨1001, "A", 5 - 3, "active", [⟨"Account created", 5, 5, none⟩,
        ⟨"Withdraw", 3, 5 - 3, none⟩]⟩ : BankAccount) ∈
      (run sysInit [.create "A" 5 "active", .withdraw 1001 3]).store ∧
    0 ≤ (⟨1001, "A", 5 - 3, "active", [⟨"Account created", 5, 5, none⟩,
        ⟨"Withdraw", 3, 5 - 3, none⟩]⟩ : BankAccount).balance :=
  ⟨List.mem_singleton.mpr rfl,
   spec_C5_thm [.create "A" 5 "active", .withdraw 1001 3] _
     (List.mem_singleton.mpr rfl)⟩

/-- C8: `from_string` splits on ";" into exactly three fields, trims holder
and status, parses the balance as a float and delegates to the constructor
— `"Bob Wilson;750;active"` yields holder "Bob Wilson", balance 750,
status "active" — and every failure (wrong field count, non-numeric
balance, invalid status, negative balance) is a single
`InvalidAccountError`. -/
theorem spec_C8_thm :
    (∀ c : Nat, BankAccount.from_string c "Bob Wilson;750;active" =
      .ok ({ account_number := c + 1, account_holder := "Bob Wilson",
             balance := 750, status := "active",
             transactions := [⟨"Account created", 750, 750, none⟩] },
           c + 1)) ∧
    (∀ c : Nat, BankAccount.from_string c "Bob Wilson;750;active" =
      BankAccount.init c "Bob Wilson" 750 "active") ∧
    (∀ c : Nat, BankAccount.from_string c "  Bob Wilson ; 750 ;  active  " =
      BankAccount.from_string c "Bob Wilson;750;active") ∧
    (∀ (c : Nat) (d : String) (e : AccountError),
      BankAccount.from_string c d = .error e → e = .invalidAccount) ∧
    (∀ c : Nat, BankAccount.from_string c "bad" = .error .invalidAccount) ∧
    (∀ c : Nat, BankAccount.from_string c "x;abc;active" =
      .error .invalidAccount) ∧
    (∀ c : Nat, BankAccount.from_string c "x;5;frozen" =
      .error .invalidAccount) ∧
    (∀ c : Nat, BankAccount.from_string c "x;-5;active" =
      .error .invalidAccount) := by
  refine ⟨fun c => rfl, ?_, fun c => rfl, ?_, fun c => rfl, fun c => rfl,
    fun c => rfl, fun c => rfl⟩
  · intro c
    have hi : BankAccount.init c "Bob Wilson" 750 "active" =
        .ok ({ account_number := c + 1, account_holder := "Bob Wilson",
               balance := 750, status := "active",
               transactions := [⟨"Account created", 750, 750, none⟩] },
             c + 1) :=
      BankAccount.init_ok (by decide) (Or.inl rfl)
    rw [hi]
    exact rfl
  · intro c d e h
    exact from_string_error_inv h

/-- Witness for C8: the wrapped-error implication applied at the concrete
input "bad". -/
theorem spec_C8_witness :
    BankAccount.from_string 1000 "bad" = .error .invalidAccount ∧
    AccountError.invalidAccount = .invalidAccount :=
  ⟨rfl, spec_C8_thm.2.2.2.1 1000 "bad" .invalidAccount rfl⟩

/-- C9: the process-wide counter is seeded at 1000 and incremented before
each assignment, so a successful construction returns number
`counter + 1`; the first two accounts created in a fresh process get 1001
and 1002; and over any call sequence from the fresh state the account
numbers (in creation order) are strictly increasing, hence pairwise
distinct. -/
theorem spec_C9_thm :
    (∀ (sys : Sys) (h : String) (i : ℚ) (st : String),
      0 ≤ i → (st = "active" ∨ st = "inactive") →
      (createS sys h i st).2 = .ok (sys.counter + 1) ∧
      (createS sys h i st).1.counter = sys.counter + 1 ∧
      accountNumbers (createS sys h i st).1.store =
        accountNumbers sys.store ++ [sys.counter + 1]) ∧
    (∀ (h1 : String) (i1 : ℚ) (h2 : String) (i2 : ℚ),
      0 ≤ i1 → 0 ≤ i2 →
      accountNumbers (run sysInit
        [.create h1 i1 "active", .create h2 i2 "active"]).store =
        [1001, 1002]) ∧
    (∀ ops : List Op,
      (accountNumbers (run sysInit ops).store).Pairwise (· < ·) ∧
      (accountNumbers (run sysInit ops).store).Pairwise (· ≠ ·)) := by
  refine ⟨?_, ?_, ?_⟩
  · intro sys h i st h0 hst
    have hi : BankAccount.init sys.counter h i st =
        .ok ({ account_number := sys.counter + 1, account_holder := h,
               balance := i, status := st,
               transactions := [⟨"Account created", i, i, none⟩] },
             sys.counter + 1) :=
      BankAccount.init_ok h0 hst
    refine ⟨?_, ?_, ?_⟩ <;> simp only [createS, hi]
    show accountNumbers (sys.store ++ [_]) = _
    rw [accountNumbers, accountNumbers, List.map_append]
    rfl
  · intro h1 i1 h2 i2 h01 h02
    have e1 : BankAccount.init 1000 h1 i1 "active" =
        .ok ({ account_number := 1001, account_holder := h1,
               balance := i1, status := "active",
               transactions := [⟨"Account created", i1, i1, none⟩] },
             1001) :=
      BankAccount.init_ok h01 (Or.inl rfl)
    have e2 : BankAccount.init 1001 h2 i2 "active" =
        .ok ({ account_number := 1002, account_holder := h2,
               balance := i2, status := "active",
               transactions := [⟨"Account created", i2, i2, none⟩] },
             1002) :=
      BankAccount.init_ok h02 (Or.inl rfl)
    show accountNumbers (step (step sysInit
      (.create h1 i1 "active")) (.create h2 i2 "active")).store = [1001, 1002]
    simp only [step, createS, sysInit, e1, e2]
    rfl
  · intro ops
    have hinv := run_preserves_counterInv ops sysInit counterInv_sysInit
    exact ⟨hinv.1, hinv.1.imp Nat.ne_of_lt⟩

/-- Witness for C9: a concrete construction from the fresh state gets
number 1001, and two concrete constructions get [1001, 1002]. -/
theorem spec_C9_witness :
    (0 : ℚ) ≤ 5 ∧ ("active" = "active" ∨ "active" = "inactive") ∧
    ((createS sysInit "A" 5 "active").2 = .ok 1001 ∧
     (createS sysInit "A" 5 "active").1.counter = 1001 ∧
     accountNumbers (createS sysInit "A" 5 "active").1.store =
       accountNumbers sysInit.store ++ [1001]) ∧
    accountNumbers (run sysInit
      [.create "A" 5 "active", .create "B" 7 "active"]).store =
      [1001, 1002] :=
  ⟨by decide, Or.inl rfl,
   spec_C9_thm.1 sysInit "A" 5 "active" (by decide) (Or.inl rfl),
   spec_C9_thm.2.1 "A" 5 "B" 7 (by decide) (by decide)⟩

end Bank
